import Mathlib

/-!
# Verification of the physics-animation script (`generate.py`)

Shallow embedding of the deterministic simulation loop, its collision-event
capture, and the audio-timeline synthesis of `src/generate.py`.

Modelling conventions:

* Python floats are modelled as exact rationals (`ℚ`).  All quantities the
  claims are about (simulation time `n / 60`, millisecond offsets) are exact
  in this model; floating-point tolerances in the spec are subsumed by exact
  equality.
* The pymunk physics engine (`space.step`, collision detection) is external C
  code.  It is abstracted as a `PhysicsEngine` parameter: given the timestep
  and the current body state it yields the post-step body state and the number
  of post-solve collision callbacks fired during that step.  Every theorem
  holds for every engine, so in particular for the real one.
* pydub `AudioSegment`s are modelled at millisecond granularity: a buffer is a
  list of integer sample values, one per millisecond; `overlay` mixes
  additively and keeps the base buffer's length, exactly as pydub's overlay
  keeps the length of the segment it is called on.  Samples are unbounded
  integers (spec §9 leaves the clamping policy open).
-/

namespace PhysicsAnimation

/-! ## Configuration constants (`generate.py` lines 12-25, 43-58) -/

def FRAME_RATE : ℕ := 60

def DURATION : ℕ := 5

def TOTAL_FRAMES : ℕ := FRAME_RATE * DURATION

/-- Two-dimensional vector, pixel space (`pymunk.Vec2d`). -/
structure Vec2 where
  x : ℚ
  y : ℚ
  deriving DecidableEq, Repr

/-- Dynamic-body state owned by the physics space: position and velocity.
The body is created at `(300, 100)` with zero initial velocity
(`generate.py` lines 50-58). -/
structure Body where
  position : Vec2
  velocity : Vec2
  deriving DecidableEq, Repr

/-- The body created in `generate.py` lines 54-55. -/
def initBody : Body := ⟨⟨300, 100⟩, ⟨0, 0⟩⟩

/-- Abstraction of the external pymunk engine (`space.step` and the
collision-detection machinery behind `add_default_collision_handler`):
`step dt b` is the body state after `space.step(dt)` from state `b`, and
`contacts dt b` is the number of times the post-solve callback
(`collision_handler`) fires during that same `space.step(dt)` call.
The engine is pure: both are functions of the timestep and the body state. -/
structure PhysicsEngine where
  step : ℚ → Body → Body
  contacts : ℚ → Body → ℕ

/-- A trivial engine used to instantiate universally quantified theorems:
the body never moves and no collision ever fires. -/
def stillEngine : PhysicsEngine := ⟨fun _ b => b, fun _ _ => 0⟩

/-- An engine whose every step reports exactly one post-solve contact. -/
def alwaysHitEngine : PhysicsEngine := ⟨fun _ b => b, fun _ _ => 1⟩

/-- Per-frame snapshot handed to the renderer: frame index, simulation time
at the moment the frame is drawn, body position (`draw_frame` is called
after `space.step` and after the `current_time` increment,
`generate.py` lines 96-104). -/
structure Snapshot where
  frame : ℕ
  simulationTime : ℚ
  bodyPosition : Vec2
  deriving DecidableEq, Repr

/-- Mutable state of the simulation loop (`generate.py` lines 60-61, 94-104):
the clock `space.current_time`, the body, the append-only
`collision_times` list, the emitted snapshots, and the frame counter. -/
structure SimState where
  currentTime : ℚ
  body : Body
  collisionTimes : List ℚ
  snapshots : List Snapshot
  frame : ℕ
  deriving DecidableEq, Repr

/-- Initial state: `space.current_time = 0.0` (line 95), no events, body as
created. -/
def initState : SimState := ⟨0, initBody, [], [], 0⟩

/-- One iteration of the loop body (`generate.py` lines 96-104):
`space.step(dt)` runs (during which `collision_handler` appends the
*pre-increment* `space.current_time` once per post-solve contact, lines
63-69), then `space.current_time += dt`, then the frame is rendered from
the post-step body position. -/
def stepSim (phys : PhysicsEngine) (dt : ℚ) (s : SimState) : SimState :=
  ⟨s.currentTime + dt,
   phys.step dt s.body,
   s.collisionTimes ++ List.replicate (phys.contacts dt s.body) s.currentTime,
   s.snapshots ++ [⟨s.frame, s.currentTime + dt, (phys.step dt s.body).position⟩],
   s.frame + 1⟩

/-- `for frame in range(n)` around `stepSim` (`generate.py` line 96). -/
def runLoop (phys : PhysicsEngine) (dt : ℚ) : ℕ → SimState → SimState
  | 0, s => s
  | n + 1, s => runLoop phys dt n (stepSim phys dt s)

/-- Body state after `n` steps of the engine at timestep `dt`. -/
def bodyAt (phys : PhysicsEngine) (dt : ℚ) (b : Body) : ℕ → Body
  | 0 => b
  | n + 1 => phys.step dt (bodyAt phys dt b n)

/-! ## Audio synthesis (`generate.py` lines 112-135) -/

/-- Python `int()` applied to a rational: truncation toward zero. -/
def pyInt (q : ℚ) : ℤ := if 0 ≤ q then ⌊q⌋ else ⌈q⌉

/-- Modelled from the spec: pydub `AudioSegment.silent(duration=d)` (pydub is
an external library, not part of this repository).  Per spec §3/§8 the
resulting buffer has `round d` milliseconds of silence; at our
one-sample-per-millisecond granularity that is `round d` zero samples. -/
def silent (duration : ℚ) : List ℤ := List.replicate (round duration).toNat 0

/-- pydub `base.overlay(clip, position=p)`: additive sample-wise mix of `clip`
into `base` starting at offset `p`; the result keeps `base`'s length, so the
clip is truncated at the buffer end and never extends it. -/
def overlay (base clip : List ℤ) (position : ℕ) : List ℤ :=
  base.mapIdx fun i x =>
    x + (if position ≤ i then clip.getD (i - position) 0 else 0)

/-- Body of the `for collision_time in collision_times` loop
(`generate.py` lines 129-132): compute `collision_ms = int(collision_time *
1000)`; overlay when `collision_ms < len(audio)`, otherwise leave the buffer
untouched. -/
def overlayStep (collision_sound : List ℤ) (audio : List ℤ)
    (collision_time : ℚ) : List ℤ :=
  let collision_ms := pyInt (collision_time * 1000)
  if collision_ms < (audio.length : ℤ) then
    overlay audio collision_sound collision_ms.toNat
  else
    audio

/-- `generate_audio_track` (`generate.py` lines 112-135): allocate
`total_duration * 1000` ms of silence, then fold the overlay loop over the
collision times.  The clip (loaded from `collision.wav`) and the duration are
parameters, as in the Python function. -/
def generate_audio_track (collision_times : List ℚ)
    (collision_sound : List ℤ) (total_duration : ℚ) : List ℤ :=
  collision_times.foldl (overlayStep collision_sound)
    (silent (total_duration * 1000))

/-! ## Collision-sound acquisition (`generate.py` lines 31-39) -/

/-- The check-then-generate acquisition of `collision.wav`
(`generate.py` lines 32-39): the file system at the known path is an
`Option` (present with some content, or absent); when absent the generated
clip (a 440 Hz, 100 ms, fade-out tone produced by pydub, abstracted as the
parameter `generated`) is written; when present nothing happens. -/
def acquireCollisionSound (generated : List ℤ) (fs : Option (List ℤ)) :
    Option (List ℤ) :=
  match fs with
  | some c => some c
  | none => some generated

/-! ## Whole-program pipeline (for the configuration-validation claim) -/

/-- Configuration constants of `generate.py` (lines 12-25, 43-58) gathered in
one record so the run can be stated as a function of them. -/
structure Config where
  frameRate : ℕ
  durationSeconds : ℕ
  gravity : Vec2
  mass : ℚ
  radius : ℚ
  elasticity : ℚ
  bodyInitialPosition : Vec2
  floorA : Vec2
  floorB : Vec2
  deriving DecidableEq, Repr

/-- The configuration hard-coded in the script. -/
def defaultConfig : Config :=
  ⟨FRAME_RATE, DURATION, ⟨0, 900⟩, 1, 25, 8 / 10, ⟨300, 100⟩, ⟨50, 550⟩,
   ⟨550, 550⟩⟩

/-- Modelled from the spec: the error kinds of §7 (`InvalidConfiguration`,
`ResourceUnavailable`, `AllocationFailure`).  The script itself defines no
error type and raises none of these. -/
inductive SimError where
  | invalidConfiguration
  | resourceUnavailable
  | allocationFailure
  deriving DecidableEq, Repr

/-- The script end to end, as a function of the configuration, the physics
engine and the loaded collision clip: compute `TOTAL_FRAMES = FRAME_RATE *
DURATION` (line 20), run the loop, synthesize the audio.  The Python code
contains no validation and no `raise`; the result is wrapped in `Except` so
the spec's error claims can be stated, and no code path produces `.error`. -/
def runProgram (phys : PhysicsEngine) (cfg : Config) (clip : List ℤ) :
    Except SimError (List Snapshot × List ℚ × List ℤ) :=
  let dt : ℚ := 1 / (cfg.frameRate : ℚ)
  let total_frames := cfg.frameRate * cfg.durationSeconds
  let final := runLoop phys dt total_frames
    ⟨0, ⟨cfg.bodyInitialPosition, ⟨0, 0⟩⟩, [], [], 0⟩
  Except.ok
    (final.snapshots, final.collisionTimes,
     generate_audio_track final.collisionTimes clip (cfg.durationSeconds : ℚ))

/-- `defaultConfig` with `durationSeconds` set to `0`. -/
def zeroDurationConfig : Config :=
  ⟨FRAME_RATE, 0, ⟨0, 900⟩, 1, 25, 8 / 10, ⟨300, 100⟩, ⟨50, 550⟩, ⟨550, 550⟩⟩

/-! ## Unfolding lemmas for the simulation loop -/

theorem runLoop_succ_out (phys : PhysicsEngine) (d : ℚ) (n : ℕ) (s : SimState) :
    runLoop phys d (n + 1) s = stepSim phys d (runLoop phys d n s) := by
  induction n generalizing s with
  | zero => rfl
  | succ n ih =>
      show runLoop phys d (n + 1) (stepSim phys d s) = _
      rw [ih (stepSim phys d s)]
      rfl

theorem currentTime_runLoop (phys : PhysicsEngine) (d : ℚ) (n : ℕ)
    (s : SimState) :
    (runLoop phys d n s).currentTime = s.currentTime + n * d := by
  induction n with
  | zero => simp [runLoop]
  | succ n ih =>
      rw [runLoop_succ_out, stepSim, ih]
      push_cast
      ring

theorem body_runLoop (phys : PhysicsEngine) (d : ℚ) (n : ℕ) (s : SimState) :
    (runLoop phys d n s).body = bodyAt phys d s.body n := by
  induction n with
  | zero => rfl
  | succ n ih => rw [runLoop_succ_out, stepSim, ih]; rfl

theorem frame_runLoop (phys : PhysicsEngine) (d : ℚ) (n : ℕ) (s : SimState) :
    (runLoop phys d n s).frame = s.frame + n := by
  induction n with
  | zero => rfl
  | succ n ih => rw [runLoop_succ_out, stepSim, ih]; rfl

/-- Closed form of the recorded collision timestamps: the events of step
`k` (0-based) are `contacts` many copies of the clock value before that
step's increment, `s.currentTime + k * d`. -/
theorem collisionTimes_runLoop (phys : PhysicsEngine) (d : ℚ) (n : ℕ)
    (s : SimState) :
    (runLoop phys d n s).collisionTimes
      = s.collisionTimes
        ++ (List.range n).flatMap fun k =>
            List.replicate (phys.contacts d (bodyAt phys d s.body k))
              (s.currentTime + k * d) := by
  induction n with
  | zero => simp [runLoop]
  | succ n ih =>
      rw [runLoop_succ_out, stepSim, ih, List.range_succ, List.flatMap_append,
        body_runLoop, currentTime_runLoop]
      simp

/-- Closed form of the emitted snapshots: frame `k` is rendered after the
step and after the clock increment, with time `s.currentTime + (k+1) * d` and
the post-step body position. -/
theorem snapshots_runLoop (phys : PhysicsEngine) (d : ℚ) (n : ℕ)
    (s : SimState) :
    (runLoop phys d n s).snapshots
      = s.snapshots
        ++ (List.range n).map fun k =>
            ⟨s.frame + k, s.currentTime + (k + 1) * d,
             (bodyAt phys d s.body (k + 1)).position⟩ := by
  induction n with
  | zero => simp [runLoop]
  | succ n ih =>
      rw [runLoop_succ_out, stepSim, ih, List.range_succ, List.map_append,
        body_runLoop, currentTime_runLoop, frame_runLoop]
      simp [bodyAt, add_mul, add_assoc]

/-! ## C4: the simulation clock -/

/-- C4: after `n ≤ TOTAL_FRAMES` iterations of the loop with fixed step
`dt = 1 / FRAME_RATE`, `space.current_time` equals `n * dt`.  Floats are
modelled as exact rationals, so the equality is exact and in particular
within the claimed `1e-9` relative tolerance; each step adds exactly `dt`. -/
theorem currentTime_after_n_steps (phys : PhysicsEngine) (n : ℕ)
    (_h : n ≤ TOTAL_FRAMES) :
    (runLoop phys (1 / (FRAME_RATE : ℚ)) n initState).currentTime
      = (n : ℚ) * (1 / (FRAME_RATE : ℚ)) := by
  rw [currentTime_runLoop]
  simp [initState]

theorem currentTime_after_n_steps_witness :
    2 ≤ TOTAL_FRAMES
    ∧ (runLoop stillEngine (1 / (FRAME_RATE : ℚ)) 2 initState).currentTime
        = (2 : ℚ) * (1 / (FRAME_RATE : ℚ)) :=
  ⟨by decide, currentTime_after_n_steps stillEngine 2 (by decide)⟩

/-! ## C5: ordering of the recorded collision events -/

/-- Timestamps formed as `t0 + k * d` with `d ≥ 0` grow monotonically with
the step index. -/
theorem sorted_flatMap_stamps (c : ℕ → ℕ) (t0 d : ℚ) (hd : 0 ≤ d) (n : ℕ) :
    List.Sorted (· ≤ ·)
      ((List.range n).flatMap fun k => List.replicate (c k) (t0 + k * d)) := by
  induction n with
  | zero => simp
  | succ n ih =>
      rw [List.range_succ, List.flatMap_append]
      refine List.pairwise_append.mpr ⟨ih, ?_, ?_⟩
      · simp only [List.flatMap_cons, List.flatMap_nil, List.append_nil]
        exact List.pairwise_replicate.mpr (Or.inr le_rfl)
      · intro a ha b hb
        simp only [List.flatMap_cons, List.flatMap_nil, List.append_nil] at hb
        rw [List.eq_of_mem_replicate hb]
        rcases List.mem_flatMap.mp ha with ⟨k, hk, hak⟩
        rw [List.eq_of_mem_replicate hak]
        have hkn : (k : ℚ) ≤ (n : ℚ) := by
          exact_mod_cast (List.mem_range.mp hk).le
        have := mul_le_mul_of_nonneg_right hkn hd
        linarith

/-- C5: the recorded `collision_times` list is non-decreasing in append
order, for every physics engine: all events of one step carry the same
pre-increment clock value, and the clock only grows (by `dt = 1/60 > 0`)
between steps. -/
theorem collision_times_sorted (phys : PhysicsEngine) :
    List.Sorted (· ≤ ·)
      ((runLoop phys (1 / (FRAME_RATE : ℚ)) TOTAL_FRAMES
          initState).collisionTimes) := by
  rw [collisionTimes_runLoop]
  simp only [initState, List.nil_append]
  exact sorted_flatMap_stamps _ 0 _ (by norm_num [FRAME_RATE]) TOTAL_FRAMES

/-! ## C9: timestamps are aligned one `dt` behind the frame snapshots -/

/-- Closed form of the whole run's collision timestamps, shared by the
frame-alignment and drop-branch theorems. -/
theorem collisionTimes_run_char (phys : PhysicsEngine) :
    (runLoop phys (1 / (FRAME_RATE : ℚ)) TOTAL_FRAMES initState).collisionTimes
      = ((List.range TOTAL_FRAMES).flatMap fun k =>
          List.replicate
            (phys.contacts (1 / (FRAME_RATE : ℚ))
              (bodyAt phys (1 / (FRAME_RATE : ℚ)) initBody k))
            ((k : ℚ) * (1 / (FRAME_RATE : ℚ)))) := by
  rw [collisionTimes_runLoop]
  simp [initState]

/-- C9: the events of the `n`-th `space.step` call (1-based) are recorded
with timestamp `(n-1) * dt` — the clock value before that step's increment —
while the snapshot of the same frame carries simulation time `n * dt`,
exactly one `dt` more; consequently every recorded timestamp is `k * dt`
for some `k < TOTAL_FRAMES`.  Stated via the closed forms of the two lists:
index `k = n - 1` ranges over `range TOTAL_FRAMES`. -/
theorem collision_timestamps_frame_aligned (phys : PhysicsEngine) :
    (runLoop phys (1 / (FRAME_RATE : ℚ)) TOTAL_FRAMES initState).collisionTimes
      = ((List.range TOTAL_FRAMES).flatMap fun k =>
          List.replicate
            (phys.contacts (1 / (FRAME_RATE : ℚ))
              (bodyAt phys (1 / (FRAME_RATE : ℚ)) initBody k))
            ((k : ℚ) * (1 / (FRAME_RATE : ℚ))))
    ∧ (runLoop phys (1 / (FRAME_RATE : ℚ)) TOTAL_FRAMES initState).snapshots
      = ((List.range TOTAL_FRAMES).map fun k =>
          ⟨k, ((k : ℚ) + 1) * (1 / (FRAME_RATE : ℚ)),
           (bodyAt phys (1 / (FRAME_RATE : ℚ)) initBody (k + 1)).position⟩)
    ∧ List.Forall
        (fun t => ∃ k, k < TOTAL_FRAMES ∧ t = (k : ℚ) * (1 / (FRAME_RATE : ℚ)))
        (runLoop phys (1 / (FRAME_RATE : ℚ)) TOTAL_FRAMES
            initState).collisionTimes := by
  have h1 := collisionTimes_run_char phys
  refine ⟨h1, ?_, ?_⟩
  · rw [snapshots_runLoop]
    simp [initState]
  · rw [List.forall_iff_forall_mem, h1]
    intro t ht
    rcases List.mem_flatMap.mp ht with ⟨k, hk, hm⟩
    exact ⟨k, List.mem_range.mp hk, List.eq_of_mem_replicate hm⟩

/-! ## C10: the synthesizer's drop branch is unreachable end to end -/

/-- C10: every recorded collision timestamp is at most
`(TOTAL_FRAMES - 1) / FRAME_RATE`, which is strictly below `DURATION`
seconds, so `int(t * 1000)` is strictly less than the length of the silent
buffer allocated for `DURATION` seconds and the guard
`collision_ms < len(audio)` holds for every recorded event. -/
theorem drop_branch_unreachable (phys : PhysicsEngine) :
    ((TOTAL_FRAMES - 1 : ℕ) : ℚ) * (1 / (FRAME_RATE : ℚ)) < (DURATION : ℚ)
    ∧ List.Forall
        (fun t =>
          t ≤ ((TOTAL_FRAMES - 1 : ℕ) : ℚ) * (1 / (FRAME_RATE : ℚ))
          ∧ pyInt (t * 1000) < ((silent ((DURATION : ℚ) * 1000)).length : ℤ))
        (runLoop phys (1 / (FRAME_RATE : ℚ)) TOTAL_FRAMES
            initState).collisionTimes := by
  have hlen : ((silent ((DURATION : ℚ) * 1000)).length : ℤ) = 5000 := by
    have h5 : ((DURATION : ℚ) * 1000) = ((5000 : ℕ) : ℚ) := by
      norm_num [DURATION]
    simp only [silent, List.length_replicate, h5, round_natCast]
    decide
  constructor
  · norm_num [TOTAL_FRAMES, FRAME_RATE, DURATION]
  · rw [List.forall_iff_forall_mem]
    intro t ht
    rw [collisionTimes_run_char phys] at ht
    rcases List.mem_flatMap.mp ht with ⟨k, hk, hm⟩
    have hkn : k < TOTAL_FRAMES := List.mem_range.mp hk
    have hkq : (k : ℚ) ≤ ((TOTAL_FRAMES - 1 : ℕ) : ℚ) := by
      exact_mod_cast Nat.le_sub_one_of_lt hkn
    have ht' : t = (k : ℚ) * (1 / (FRAME_RATE : ℚ)) :=
      List.eq_of_mem_replicate hm
    constructor
    · rw [ht']
      have : (0 : ℚ) ≤ 1 / (FRAME_RATE : ℚ) := by norm_num [FRAME_RATE]
      exact mul_le_mul_of_nonneg_right hkq this
    · rw [hlen, ht']
      have hq : (0 : ℚ) ≤ (k : ℚ) * (1 / (FRAME_RATE : ℚ)) * 1000 := by
        positivity
      rw [pyInt, if_pos hq]
      refine Int.floor_lt.mpr ?_
      have hk299 : (k : ℚ) ≤ 299 := by
        have : ((TOTAL_FRAMES - 1 : ℕ) : ℚ) = 299 := by
          norm_num [TOTAL_FRAMES, FRAME_RATE, DURATION]
        rw [this] at hkq
        exact hkq
      push_cast
      rw [FRAME_RATE]
      push_cast
      nlinarith

/-! ## C1: truncation, additive mix, silent drop -/

/-- C1: for a non-negative event timestamp `t`, the synthesizer computes the
millisecond offset by truncation (`int(t * 1000) = ⌊t * 1000⌋`); when the
offset is strictly below the buffer length the clip is mixed additively into
the samples already present (sample `i` becomes the old sample plus the clip
sample `i - offset`, zero past the clip's end); when the offset reaches the
buffer length the buffer is returned unchanged — the event is silently
dropped, no error. -/
theorem audio_event_trunc_mix_drop (clip audio : List ℤ) (t : ℚ)
    (ht : 0 ≤ t) :
    pyInt (t * 1000) = ⌊t * 1000⌋
    ∧ (⌊t * 1000⌋ < (audio.length : ℤ) →
        ∀ i : ℕ, i < audio.length →
          (overlayStep clip audio t).getD i 0
            = audio.getD i 0
              + (if (⌊t * 1000⌋).toNat ≤ i then
                  clip.getD (i - (⌊t * 1000⌋).toNat) 0
                else 0))
    ∧ ((audio.length : ℤ) ≤ ⌊t * 1000⌋ →
        overlayStep clip audio t = audio) := by
  have h0 : (0 : ℚ) ≤ t * 1000 := mul_nonneg ht (by norm_num)
  have hp : pyInt (t * 1000) = ⌊t * 1000⌋ := by rw [pyInt, if_pos h0]
  refine ⟨hp, ?_, ?_⟩
  · intro hlt i hi
    simp only [overlayStep, hp, if_pos hlt]
    have hi2 : i < (overlay audio clip (⌊t * 1000⌋).toNat).length := by
      rw [overlay, List.length_mapIdx]
      exact hi
    rw [List.getD_eq_getElem?_getD, List.getD_eq_getElem?_getD, overlay,
      List.getElem?_mapIdx, List.getElem?_eq_getElem hi]
    simp
  · intro hge
    have hn : ¬ pyInt (t * 1000) < (audio.length : ℤ) := by
      rw [hp]
      exact not_lt.mpr hge
    simp only [overlayStep, if_neg hn]

theorem audio_event_trunc_mix_drop_witness :
    (0 : ℚ) ≤ 3 / 2 ∧ pyInt ((3 / 2 : ℚ) * 1000) = ⌊(3 / 2 : ℚ) * 1000⌋ :=
  ⟨by norm_num, (audio_event_trunc_mix_drop [] [] (3 / 2) (by norm_num)).1⟩

/-! ## C2: the offset is truncated, not rounded -/

/-- C2 counterexample: at `t = 3/2000` s, `t * 1000 = 3/2` ms, so
`round(t * 1000) = 2` while the code's `int(t * 1000)` is `1`: with a 10 ms
buffer and the one-sample clip `[7]`, the clip lands at index 1, and index 2
(where a round-to-nearest placement would put it) stays silent. -/
theorem overlay_offset_round_counterexample :
    generate_audio_track [3 / 2000] [7] (1 / 100)
      = [0, 7, 0, 0, 0, 0, 0, 0, 0, 0]
    ∧ round ((3 / 2000 : ℚ) * 1000) = 2
    ∧ ([0, 7, 0, 0, 0, 0, 0, 0, 0, 0] : List ℤ).getD 2 0 = 0 := by
  refine ⟨?_, by rw [round_eq]; norm_num, by decide⟩
  have h10 : round ((1 / 100 : ℚ) * 1000) = 10 := by norm_num
  have hoff : pyInt ((3 / 2000 : ℚ) * 1000) = 1 := by
    rw [pyInt, if_pos (by norm_num : (0 : ℚ) ≤ (3 / 2000 : ℚ) * 1000)]
    norm_num
  simp only [generate_audio_track, silent, h10, List.foldl_cons,
    List.foldl_nil, overlayStep, hoff]
  decide

/-- C2 amended: the overlay of each event with non-negative timestamp `t`
starts at the truncated offset `⌊t * 1000⌋` (Python `int(t * 1000)`), not at
`round(t * 1000)`; events whose offset reaches the buffer length are
dropped. -/
theorem overlay_offset_is_truncation (t : ℚ) (ht : 0 ≤ t)
    (clip audio : List ℤ) :
    overlayStep clip audio t
      = if ⌊t * 1000⌋ < (audio.length : ℤ) then
          overlay audio clip (⌊t * 1000⌋).toNat
        else audio := by
  have h0 : (0 : ℚ) ≤ t * 1000 := mul_nonneg ht (by norm_num)
  simp only [overlayStep, pyInt, if_pos h0]

theorem overlay_offset_is_truncation_witness :
    (0 : ℚ) ≤ 3 / 2000
    ∧ overlayStep [7] (List.replicate 10 0) (3 / 2000)
        = if ⌊(3 / 2000 : ℚ) * 1000⌋ < ((List.replicate 10 (0 : ℤ)).length : ℤ)
          then overlay (List.replicate 10 0) [7] (⌊(3 / 2000 : ℚ) * 1000⌋).toNat
          else List.replicate 10 0 :=
  ⟨by norm_num,
   overlay_offset_is_truncation (3 / 2000) (by norm_num) [7]
     (List.replicate 10 0)⟩

/-! ## C3: the audio length invariant -/

theorem length_overlay (base clip : List ℤ) (p : ℕ) :
    (overlay base clip p).length = base.length := by
  simp [overlay]

theorem length_overlayStep (clip audio : List ℤ) (t : ℚ) :
    (overlayStep clip audio t).length = audio.length := by
  simp only [overlayStep]
  split
  · exact length_overlay audio clip _
  · rfl

theorem length_foldl_overlay (clip : List ℤ) (l : List ℚ) :
    ∀ audio : List ℤ, (l.foldl (overlayStep clip) audio).length
      = audio.length := by
  induction l with
  | nil => intro audio; rfl
  | cons t l ih => intro audio; rw [List.foldl_cons, ih, length_overlayStep]

/-- C3: for every event list and every positive duration `D`, the buffer
produced by `generate_audio_track` has exactly `round(D * 1000)` samples
(milliseconds): the initial silence has that length and every overlay
preserves the buffer's length. -/
theorem audio_length_invariant (events : List ℚ) (clip : List ℤ) (D : ℚ)
    (hD : 0 < D) :
    ((generate_audio_track events clip D).length : ℤ) = round (D * 1000) := by
  rw [generate_audio_track, length_foldl_overlay]
  simp only [silent, List.length_replicate]
  refine Int.toNat_of_nonneg ?_
  rw [round_eq]
  refine Int.floor_nonneg.mpr ?_
  nlinarith

theorem audio_length_invariant_witness :
    (0 : ℚ) < 1
    ∧ ((generate_audio_track [] [] 1).length : ℤ) = round ((1 : ℚ) * 1000) :=
  ⟨by norm_num, audio_length_invariant [] [] 1 (by norm_num)⟩

/-! ## C7: idempotent clip acquisition -/

/-- C7: the check-then-generate acquisition of the collision clip is
idempotent: an existing file is left untouched (no regeneration, content
unchanged), the clip is generated exactly when the file is absent, and
running the acquisition twice equals running it once. -/
theorem clip_acquisition_idempotent (generated c : List ℤ)
    (fs : Option (List ℤ)) :
    acquireCollisionSound generated (some c) = some c
    ∧ acquireCollisionSound generated none = some generated
    ∧ acquireCollisionSound generated (acquireCollisionSound generated fs)
        = acquireCollisionSound generated fs := by
  refine ⟨rfl, rfl, ?_⟩
  cases fs <;> rfl

/-! ## C6: there is no configuration validation -/

/-- C6 counterexample: with `durationSeconds = 0` the script does not fail
with `InvalidConfiguration`; `TOTAL_FRAMES = 60 * 0 = 0`, the loop body never
runs, and the program completes successfully with no snapshots, no collision
events and an empty audio buffer. -/
theorem zero_duration_runs_without_error :
    runProgram stillEngine zeroDurationConfig [] = Except.ok ([], [], [])
    ∧ runProgram stillEngine zeroDurationConfig []
        ≠ Except.error SimError.invalidConfiguration := by
  have hok : runProgram stillEngine zeroDurationConfig []
      = Except.ok ([], [], []) := by
    simp [runProgram, zeroDurationConfig, runLoop, generate_audio_track,
      silent]
  exact ⟨hok, by rw [hok]; exact fun hcon => Except.noConfusion hcon⟩

/-- C6 amended: the script performs no configuration validation and raises
no error: `runProgram` never produces `InvalidConfiguration` for any
configuration, and with `durationSeconds = 0` it executes zero steps and
completes successfully with empty frame and event lists and an empty audio
buffer. -/
theorem no_configuration_validation (phys : PhysicsEngine) (cfg : Config)
    (clip : List ℤ) :
    runProgram phys cfg clip ≠ Except.error SimError.invalidConfiguration
    ∧ (cfg.durationSeconds = 0 →
        runProgram phys cfg clip = Except.ok ([], [], [])) := by
  constructor
  · simp [runProgram]
  · intro h0
    simp [runProgram, h0, runLoop, generate_audio_track, silent]

theorem no_configuration_validation_witness :
    runProgram stillEngine zeroDurationConfig [3]
        ≠ Except.error SimError.invalidConfiguration
    ∧ runProgram stillEngine zeroDurationConfig [3]
        = Except.ok ([], [], []) :=
  ⟨(no_configuration_validation stillEngine zeroDurationConfig [3]).1,
   (no_configuration_validation stillEngine zeroDurationConfig [3]).2 rfl⟩

/-! ## C8: determinism of the simulation loop -/

/-- One iteration of the loop as an operational-semantics relation: the same
transition `stepSim` performs, written out constructor-style so determinism
is a statement about the relation rather than about a function. -/
inductive StepRel (phys : PhysicsEngine) (d : ℚ) : SimState → SimState → Prop
  | step (t : ℚ) (b : Body) (evs : List ℚ) (snaps : List Snapshot) (f : ℕ) :
      StepRel phys d ⟨t, b, evs, snaps, f⟩
        ⟨t + d, phys.step d b,
         evs ++ List.replicate (phys.contacts d b) t,
         snaps ++ [⟨f, t + d, (phys.step d b).position⟩], f + 1⟩

/-- `n` iterations of the loop as a relation. -/
inductive RunRel (phys : PhysicsEngine) (d : ℚ) : ℕ → SimState → SimState → Prop
  | refl (s : SimState) : RunRel phys d 0 s s
  | tail (n : ℕ) (s s1 s2 : SimState) :
      StepRel phys d s s1 → RunRel phys d n s1 s2 → RunRel phys d (n + 1) s s2

theorem stepRel_deterministic (phys : PhysicsEngine) (d : ℚ)
    (s o1 o2 : SimState) (h1 : StepRel phys d s o1) (h2 : StepRel phys d s o2) :
    o1 = o2 := by
  cases h1
  cases h2
  rfl

/-- Any run relates each start state and step count to the `runLoop`
result, so the relation is total. -/
theorem runRel_runLoop (phys : PhysicsEngine) (d : ℚ) (n : ℕ) :
    ∀ s : SimState, RunRel phys d n s (runLoop phys d n s) := by
  induction n with
  | zero => intro s; exact RunRel.refl s
  | succ n ih =>
      intro s
      refine RunRel.tail n s (stepSim phys d s) _ ?_ (ih (stepSim phys d s))
      cases s
      exact StepRel.step _ _ _ _ _

/-- C8: the loop is deterministic: two runs of the same length from the same
state, with the same engine, timestep, gravity and initial conditions, reach
the same final state; in particular they emit identical
`(frame, simulationTime, bodyPosition)` snapshot sequences and identical
collision-timestamp lists. -/
theorem simulation_deterministic (phys : PhysicsEngine) (d : ℚ) (n : ℕ)
    (s o1 o2 : SimState) (h1 : RunRel phys d n s o1)
    (h2 : RunRel phys d n s o2) :
    o1.snapshots = o2.snapshots ∧ o1.collisionTimes = o2.collisionTimes := by
  suffices h : o1 = o2 by rw [h]; exact ⟨rfl, rfl⟩
  induction h1 generalizing o2 with
  | refl s => cases h2; rfl
  | tail n s s1 s2 hstep hrun ih =>
      cases h2 with
      | tail _ _ s1' _ hstep' hrun' =>
          rw [stepRel_deterministic phys d s s1 s1' hstep hstep'] at hrun ih
          exact ih _ hrun'

theorem simulation_deterministic_witness :
    (runLoop stillEngine (1 / (FRAME_RATE : ℚ)) 1 initState).snapshots
      = (runLoop stillEngine (1 / (FRAME_RATE : ℚ)) 1 initState).snapshots
    ∧ (runLoop stillEngine (1 / (FRAME_RATE : ℚ)) 1 initState).collisionTimes
      = (runLoop stillEngine (1 / (FRAME_RATE : ℚ)) 1 initState).collisionTimes :=
  simulation_deterministic stillEngine (1 / (FRAME_RATE : ℚ)) 1 initState _ _
    (runRel_runLoop stillEngine (1 / (FRAME_RATE : ℚ)) 1 initState)
    (runRel_runLoop stillEngine (1 / (FRAME_RATE : ℚ)) 1 initState)

end PhysicsAnimation
